import Mathlib

/-!
Verification of the budget-and-ledger aggregation engine of a personal
finance tracker (Express + Mongoose backend).

The embedding models:
  * `FinancialRecord` and `Budget` documents (backend/models, in
    `src/unnamed/part_004`), with monetary amounts as exact rationals and
    JavaScript `Date` values as milliseconds since the Unix epoch;
  * the Mongoose statics/methods `getUserBalance`, `getMonthlySummary`,
    `updateSpentAmount` and the budget virtuals;
  * the route handlers of `src/backend/routes/records.js` and
    `src/backend/routes/budget.js` that the claims reference, with the
    MongoDB collections modelled as Lean lists and `findOne` as `List.find?`.
-/

namespace FinanceApp

/-- JavaScript date component arithmetic: days since 1970-01-01 for a civil
date (year, month 1..12, day).  Follows the standard civil-calendar
algorithm with floored division, matching ECMAScript `Date` semantics
(proleptic Gregorian calendar, no timezone offset in the model). -/
def daysFromCivil (y m d : Int) : Int :=
  let y1 : Int := if m ≤ 2 then y - 1 else y
  let era : Int := Int.fdiv y1 400
  let yoe : Int := y1 - era * 400
  let mp : Int := if m > 2 then m - 3 else m + 9
  let doy : Int := Int.fdiv (153 * mp + 2) 5 + d - 1
  let doe : Int := yoe * 365 + Int.fdiv yoe 4 - Int.fdiv yoe 100 + doy
  era * 146097 + doe - 719468

/-- Inverse of `daysFromCivil`: (year, month 1..12, day) of a day count. -/
def civilFromDays (z0 : Int) : Int × Int × Int :=
  let z : Int := z0 + 719468
  let era : Int := Int.fdiv z 146097
  let doe : Int := z - era * 146097
  let yoe : Int :=
    Int.fdiv (doe - Int.fdiv doe 1460 + Int.fdiv doe 36524 - Int.fdiv doe 146096) 365
  let y : Int := yoe + era * 400
  let doy : Int := doe - (365 * yoe + Int.fdiv yoe 4 - Int.fdiv yoe 100)
  let mp : Int := Int.fdiv (5 * doy + 2) 153
  let d : Int := doy - Int.fdiv (153 * mp + 2) 5 + 1
  let m : Int := if mp < 10 then mp + 3 else mp - 9
  (if m ≤ 2 then y + 1 else y, m, d)

def msPerDay : Int := 86400000

/-- Model of `new Date(year, monthIndex, day, hours, minutes, seconds)`, the
ECMAScript constructor with 0-based month index; out-of-range month and
day arguments (e.g. `day = 0`, `monthIndex = 12`) are normalised by
calendar arithmetic, exactly as in JS.  Result: ms since the epoch. -/
def jsDateMs (year monthIndex day h mi s : Int) : Int :=
  let tm : Int := year * 12 + monthIndex
  let y : Int := Int.fdiv tm 12
  let m : Int := Int.fmod tm 12
  (daysFromCivil y (m + 1) 1 + (day - 1)) * msPerDay
    + h * 3600000 + mi * 60000 + s * 1000

/-- Model of `Date.prototype.getFullYear()` on a ms timestamp. -/
def jsGetFullYear (t : Int) : Int := (civilFromDays (Int.fdiv t msPerDay)).1

/-- Model of `Date.prototype.getMonth()` (0-based) on a ms timestamp. -/
def jsGetMonth (t : Int) : Int := (civilFromDays (Int.fdiv t msPerDay)).2.1 - 1

/-- Model of `Date.prototype.getDay()` (0 = Sunday) on a ms timestamp; the
epoch day 1970-01-01 was a Thursday (= 4). -/
def jsGetDay (t : Int) : Int := Int.fmod (Int.fdiv t msPerDay + 4) 7

/-- Record type enum: `type ∈ {income, expense}` in `financialRecordSchema`. -/
inductive RecType where
  | income
  | expense
  deriving DecidableEq, Repr

/-- Budget period enum: `period ∈ {weekly, monthly, yearly}` in `budgetSchema`. -/
inductive Period where
  | weekly
  | monthly
  | yearly
  deriving DecidableEq, Repr

/-- A document of the `FinancialRecord` collection (`financialRecordSchema`
in `src/unnamed/part_004`).  `amount` is an exact rational (the JS number
treated as an exact decimal), `date` is ms since the epoch.  Fields not
used by any aggregation (paymentMethod, tags, notes, recurrence) are
omitted; they never enter a `$match`, `$group` or budget query. -/
structure FinancialRecord where
  id : Nat
  user : Nat
  description : String
  amount : ℚ
  rtype : RecType
  category : String
  date : Int
  deriving DecidableEq, Repr

/-- A document of the `Budget` collection (`budgetSchema` in
`src/unnamed/part_004`). -/
structure Budget where
  id : Nat
  user : Nat
  category : String
  budgetAmount : ℚ
  spentAmount : ℚ
  period : Period
  startDate : Int
  endDate : Int
  isActive : Bool
  alertThreshold : ℚ
  color : String
  deriving DecidableEq, Repr

/-- Sum of the `amount` fields of a record list (a MongoDB
`$group: {total: {$sum: '$amount'}}`; the source's
`result.length > 0 ? result[0].total : 0` is the empty sum = 0). -/
def amountSum (rs : List FinancialRecord) : ℚ :=
  (rs.map (·.amount)).sum

/-- Balance result shape of `financialRecordSchema.statics.getUserBalance`. -/
structure BalanceResult where
  income : ℚ
  expense : ℚ
  balance : ℚ
  deriving DecidableEq, Repr

/-- Embedding of `financialRecordSchema.statics.getUserBalance(userId)`
(`src/unnamed/part_004`, lines 448-468): all-time per-type totals over the
user's records, `balance = income - expense`. -/
def getUserBalance (records : List FinancialRecord) (userId : Nat) : BalanceResult :=
  let rs := records.filter (fun r => r.user == userId)
  let income := amountSum (rs.filter (fun r => r.rtype == RecType.income))
  let expense := amountSum (rs.filter (fun r => r.rtype == RecType.expense))
  { income := income, expense := expense, balance := income - expense }

/-- The month window used by `getMonthlySummary` and the monthly-summary
route (`records.js` lines 92-96): `startDate = new Date(year, month-1, 1)`,
`endDate = new Date(year, month, 0, 23, 59, 59)` (day 0 of the next month
= last day of the requested month, at 23:59:59). -/
def monthWindow (year month : Int) : Int × Int :=
  (jsDateMs year (month - 1) 1 0 0 0, jsDateMs year month 0 23 59 59)

/-- Result shape of the monthly summary. -/
structure SummaryResult where
  income : ℚ
  expense : ℚ
  balance : ℚ
  month : Int
  year : Int
  deriving DecidableEq, Repr

/-- Embedding of `financialRecordSchema.statics.getMonthlySummary`
(`src/unnamed/part_004`, lines 471-502), identical aggregation to the
`/monthly-summary` route handler (`records.js` lines 80-138): per-type
totals over the user's records with `date: {$gte: startDate, $lte: endDate}`
for the `monthWindow`. -/
def getMonthlySummary (records : List FinancialRecord) (userId : Nat)
    (year month : Int) : SummaryResult :=
  let w := monthWindow year month
  let rs := records.filter (fun r =>
    r.user == userId && decide (w.1 ≤ r.date) && decide (r.date ≤ w.2))
  let income := amountSum (rs.filter (fun r => r.rtype == RecType.income))
  let expense := amountSum (rs.filter (fun r => r.rtype == RecType.expense))
  { income := income, expense := expense, balance := income - expense,
    month := month, year := year }

/-- One `{_id: category, total, count}` group of the category-breakdown
aggregation. -/
structure CatEntry where
  category : String
  total : ℚ
  count : Nat
  deriving DecidableEq, Repr

/-- Grouping step of `$group: {_id: '$category', ...}`: one entry per
distinct category of `rs`, with the per-category amount total and count. -/
def groupByCategory (rs : List FinancialRecord) : List CatEntry :=
  ((rs.map (·.category)).dedup).map (fun c =>
    let grp := rs.filter (fun r => r.category == c)
    { category := c, total := amountSum grp, count := grp.length })

/-- Insertion of an entry into a list sorted by descending total
(`$sort: {total: -1}`). -/
def insertByTotalDesc (e : CatEntry) : List CatEntry → List CatEntry
  | [] => [e]
  | x :: xs => if x.total < e.total then e :: x :: xs else x :: insertByTotalDesc e xs

/-- Sort a breakdown by descending total (`$sort: {total: -1}`). -/
def sortByTotalDesc : List CatEntry → List CatEntry
  | [] => []
  | x :: xs => insertByTotalDesc x (sortByTotalDesc xs)

/-- Embedding of the `/category-breakdown` route handler (`records.js`
lines 143-177):
match the user's records of the given `type` (query default: expense),
restricted to `monthWindow year month` when both `year` and `month` are
supplied, group by category, and sort by total descending. -/
def getCategoryBreakdown (records : List FinancialRecord) (userId : Nat)
    (t : RecType) (ym : Option (Int × Int)) : List CatEntry :=
  let rs := records.filter (fun r =>
    r.user == userId && r.rtype == t &&
      (match ym with
       | some (year, month) =>
           let w := monthWindow year month
           decide (w.1 ≤ r.date) && decide (r.date ≤ w.2)
       | none => true))
  sortByTotalDesc (groupByCategory rs)

/-- Embedding of `budgetSchema.methods.updateSpentAmount` (`src/unnamed/part_004`,
lines 337-359): recompute `spentAmount` as the total of the user's
`expense` records whose `category` equals `this.category` and whose
`date` is in `{$gte: this.startDate, $lte: this.endDate}`, then save.
The match is the same for every category value — the source has no
special case for any sentinel category. -/
def updateSpentAmount (records : List FinancialRecord) (b : Budget) : Budget :=
  let total := amountSum (records.filter (fun r =>
    r.user == b.user && r.rtype == RecType.expense && r.category == b.category
      && decide (b.startDate ≤ r.date) && decide (r.date ≤ b.endDate)))
  { b with spentAmount := total }

/-- Embedding of the virtual `remainingAmount` (`src/unnamed/part_004`, lines 319-321):
`Math.max(0, budgetAmount - spentAmount)`. -/
def remainingAmount (b : Budget) : ℚ :=
  max 0 (b.budgetAmount - b.spentAmount)

/-- Embedding of the virtual `percentageSpent` (lines 324-326):
`budgetAmount > 0 ? spentAmount / budgetAmount * 100 : 0`. -/
def percentageSpent (b : Budget) : ℚ :=
  if b.budgetAmount > 0 then b.spentAmount / b.budgetAmount * 100 else 0

/-- Embedding of the virtual `status` (lines 329-334). -/
def statusOf (b : Budget) : String :=
  if percentageSpent b ≥ 100 then "exceeded"
  else if percentageSpent b ≥ b.alertThreshold then "warning"
  else "good"

/-- Budget window computation of the create handler
(`budget.js` lines 82-102), given `now` (ms):
weekly — `now.setDate(now.getDate() - now.getDay())` keeps the time of day
and moves back to the most recent Sunday, end = start + 6 days;
monthly — `new Date(y, m, 1)` to `new Date(y, m+1, 0)` (last day of the
month at midnight); yearly — `new Date(y, 0, 1)` to `new Date(y, 11, 31)`. -/
def computeWindow (p : Period) (now : Int) : Int × Int :=
  match p with
  | .weekly =>
      let s := now - jsGetDay now * msPerDay
      (s, s + 6 * msPerDay)
  | .monthly =>
      (jsDateMs (jsGetFullYear now) (jsGetMonth now) 1 0 0 0,
       jsDateMs (jsGetFullYear now) (jsGetMonth now + 1) 0 0 0 0)
  | .yearly =>
      (jsDateMs (jsGetFullYear now) 0 1 0 0 0,
       jsDateMs (jsGetFullYear now) 11 31 0 0 0)

/-- Body accepted by the budget create handler (after `validateBudget`,
which makes `category`, `budgetAmount` and `period` mandatory and
`alertThreshold`/`color` optional). -/
structure BudgetCreateReq where
  category : String
  budgetAmount : ℚ
  period : Period
  alertThreshold : Option ℚ
  color : Option String
  deriving Repr

/-- Embedding of `POST /api/budget` (`budget.js` lines 64-126): reject when an active
budget for the same user and category exists (`findOne` on
`{user, category, isActive: true}`); otherwise compute the window from
`period` and `now`, insert the budget (`alertThreshold || 80` — JS
truthiness, so an explicit 0 also falls back to 80 — and default color),
and reconcile it immediately.  The error branch returns before `create`,
so the stored budget list is untouched there. -/
def createBudget (now : Int) (records : List FinancialRecord)
    (budgets : List Budget) (newId : Nat) (userId : Nat)
    (req : BudgetCreateReq) : Except String (List Budget) :=
  match budgets.find? (fun b =>
      b.user == userId && b.category == req.category && b.isActive) with
  | some _ => .error "Active budget already exists for this category"
  | none =>
      let w := computeWindow req.period now
      let b : Budget :=
        { id := newId, user := userId, category := req.category,
          budgetAmount := req.budgetAmount, spentAmount := 0,
          period := req.period, startDate := w.1, endDate := w.2,
          isActive := true,
          alertThreshold :=
            match req.alertThreshold with
            | some a => if a = 0 then 80 else a
            | none => 80,
          color := req.color.getD "#3B82F6" }
      .ok (budgets ++ [updateSpentAmount records b])

/-- The budget-collection state after the create request: MongoDB keeps the
previous documents when the handler returns the 400 error. -/
def createBudgetState (now : Int) (records : List FinancialRecord)
    (budgets : List Budget) (newId : Nat) (userId : Nat)
    (req : BudgetCreateReq) : List Budget :=
  match createBudget now records budgets newId userId req with
  | .ok bs => bs
  | .error _ => budgets

/-- Body accepted by the budget update handler (each field applied only
`if (field !== undefined)`, `budget.js` lines 145-148). -/
structure BudgetUpdateReq where
  budgetAmount : Option ℚ
  period : Option Period
  alertThreshold : Option ℚ
  category : Option String
  deriving Repr

/-- Field application + window step of `PUT /api/budget/:id`
(`budget.js` lines 142-176): assign the supplied fields to the fetched
budget, then — mirroring line 151 exactly — recompute the window only
`if (period && period !== budget.period)`.  Because `budget.period` was
already overwritten with `period` at line 146, this comparison is made
against the new value. -/
def applyBudgetUpdate (now : Int) (b : Budget) (req : BudgetUpdateReq) : Budget :=
  let b := match req.budgetAmount with
    | some v => { b with budgetAmount := v }
    | none => b
  let b := match req.period with
    | some p => { b with period := p }
    | none => b
  let b := match req.alertThreshold with
    | some v => { b with alertThreshold := v }
    | none => b
  let b := match req.category with
    | some c => { b with category := c }
    | none => b
  match req.period with
  | some p =>
      if p ≠ b.period then
        let w := computeWindow p now
        { b with startDate := w.1, endDate := w.2 }
      else b
  | none => b

/-- Replace the budget with the same id (a Mongoose `save` of a fetched
document writes it back in place). -/
def setBudget (budgets : List Budget) (b : Budget) : List Budget :=
  budgets.map (fun x => if x.id == b.id then b else x)

/-- Embedding of `PUT /api/budget/:id` (`budget.js` lines 131-191): fetch by id and
owner (404 otherwise), apply `applyBudgetUpdate`, save, then
`updateSpentAmount` (which saves again); the stored document is the
reconciled one. -/
def updateBudgetRoute (now : Int) (records : List FinancialRecord)
    (budgets : List Budget) (userId budgetId : Nat)
    (req : BudgetUpdateReq) : Except String (List Budget) :=
  match budgets.find? (fun b => b.id == budgetId && b.user == userId) with
  | none => .error "Budget not found"
  | some b =>
      .ok (setBudget budgets (updateSpentAmount records (applyBudgetUpdate now b req)))

/-- Embedding of `PATCH /api/budget/:id/toggle` (`budget.js` lines 259-281): fetch by
id and owner (404 otherwise), flip `isActive`, save.  No other check is
performed. -/
def toggleBudgetActive (budgets : List Budget) (userId budgetId : Nat) :
    Except String (List Budget) :=
  match budgets.find? (fun b => b.id == budgetId && b.user == userId) with
  | none => .error "Budget not found"
  | some b => .ok (setBudget budgets { b with isActive := !b.isActive })

/-- Number of active budgets a user holds for a category. -/
def activeBudgetCount (budgets : List Budget) (userId : Nat) (category : String) : Nat :=
  (budgets.filter (fun b => b.user == userId && b.category == category && b.isActive)).length

/-- Backend state the record routes touch: the two collections. -/
structure Store where
  records : List FinancialRecord
  budgets : List Budget
  deriving DecidableEq, Repr

/-- Replace the record with the same id (Mongoose `save` of a fetched
document). -/
def setRecord (records : List FinancialRecord) (r : FinancialRecord) :
    List FinancialRecord :=
  records.map (fun x => if x.id == r.id then r else x)

/-- Body accepted by the record update handler: `validateFinancialRecord`
makes `description`, `amount`, `type` and `category` mandatory and `date`
optional; `Object.assign(record, req.body)` overwrites exactly the
supplied fields. -/
structure RecordUpdateReq where
  description : String
  amount : ℚ
  rtype : RecType
  category : String
  date : Option Int
  deriving Repr

/-- Application of `Object.assign(record, req.body)` for an update body. -/
def applyRecordUpdate (r : FinancialRecord) (req : RecordUpdateReq) : FinancialRecord :=
  { r with description := req.description, amount := req.amount,
           rtype := req.rtype, category := req.category,
           date := req.date.getD r.date }

/-- Embedding of `PUT /api/records/:id` (`records.js` lines 306-355): fetch the owned
record (404 otherwise); capture `oldCategory`/`oldType`; save the updated
record; then, `if (oldType === 'expense' || record.type === 'expense')`:
(1) only `if (oldCategory !== record.category)`, reconcile the active
budget found for the old category (no window condition); (2) reconcile
the active budget found for the new category whose window contains the
new date.  Either `findOne` may come back empty, in which case that step
is skipped. -/
def updateRecord (st : Store) (userId recordId : Nat) (req : RecordUpdateReq) :
    Except String Store :=
  match st.records.find? (fun r => r.id == recordId && r.user == userId) with
  | none => .error "Record not found"
  | some record =>
      let oldCategory := record.category
      let oldType := record.rtype
      let newRec := applyRecordUpdate record req
      let records := setRecord st.records newRec
      let budgets :=
        if oldType == RecType.expense || newRec.rtype == RecType.expense then
          let budgets :=
            if oldCategory != newRec.category then
              match st.budgets.find? (fun b =>
                  b.user == userId && b.category == oldCategory && b.isActive) with
              | some oldBudget => setBudget st.budgets (updateSpentAmount records oldBudget)
              | none => st.budgets
            else st.budgets
          match budgets.find? (fun b =>
              b.user == userId && b.category == newRec.category && b.isActive
                && decide (b.startDate ≤ newRec.date)
                && decide (newRec.date ≤ b.endDate)) with
          | some newBudget => setBudget budgets (updateSpentAmount records newBudget)
          | none => budgets
        else st.budgets
      .ok { records := records, budgets := budgets }

/-- Char-list begins-with check (helper for the regex model). -/
def beginsWith : List Char → List Char → Bool
  | _, [] => true
  | [], _ :: _ => false
  | c :: hay, p :: pat => p == c && beginsWith hay pat

/-- Char-list substring containment (helper for the regex model). -/
def containsSub : List Char → List Char → Bool
  | hay, pat =>
      match hay with
      | [] => beginsWith [] pat
      | _ :: rest => beginsWith hay pat || containsSub rest pat

/-- Model of `new RegExp(pattern, 'i').test(stored)` for a pattern free of
regex metacharacters: an unanchored, case-insensitive substring match
(ASCII lowercasing of both sides). -/
def regexTestCI (pattern stored : String) : Bool :=
  containsSub (stored.toList.map Char.toLower) (pattern.toList.map Char.toLower)

/-- Query filters of `GET /api/records` (`records.js` lines 16-30). -/
structure RecordFilter where
  rtype : Option RecType
  category : Option String
  startDate : Option Int
  endDate : Option Int
  deriving Repr

/-- The Mongo query built by the list handler: owner always; `type` by
exact equality when supplied; `category` through
`new RegExp(category, 'i')` when supplied; optional `$gte`/`$lte` date
bounds. -/
def matchesListQuery (userId : Nat) (f : RecordFilter) (r : FinancialRecord) : Bool :=
  r.user == userId
    && (match f.rtype with | some t => r.rtype == t | none => true)
    && (match f.category with | some c => regexTestCI c r.category | none => true)
    && (match f.startDate with | some s => decide (s ≤ r.date) | none => true)
    && (match f.endDate with | some e => decide (r.date ≤ e) | none => true)

/-- Insertion into a list sorted by descending date (`sort({date: -1,
createdAt: -1})`; ids stand in for creation order, ties keep store order). -/
def insertByDateDesc (r : FinancialRecord) : List FinancialRecord → List FinancialRecord
  | [] => [r]
  | x :: xs => if x.date < r.date then r :: x :: xs else x :: insertByDateDesc r xs

/-- Sort records by descending date. -/
def sortByDateDesc : List FinancialRecord → List FinancialRecord
  | [] => []
  | x :: xs => insertByDateDesc x (sortByDateDesc xs)

/-- Embedding of `GET /api/records` (`records.js` lines 16-50): filter by
`matchesListQuery`, sort by date descending, and page
(`skip((page-1)*limit)`, `limit(limit)`). -/
def listRecords (records : List FinancialRecord) (userId : Nat)
    (f : RecordFilter) (page limit : Nat) : List FinancialRecord :=
  ((sortByDateDesc (records.filter (matchesListQuery userId f))).drop
    ((page - 1) * limit)).take limit

/-!  Spec-side definitions (for refinement comparison) and concrete
fixtures used by the scenario theorems. -/

/-- The spec's non-sentinel reconciliation rule, written from its words:
the sum of `amount` over the user's expense records whose category equals
the budget's category exactly and whose date lies within
`[startDate, endDate]` inclusive. -/
def windowedCategorySum (records : List FinancialRecord) (user : Nat)
    (category : String) (s e : Int) : ℚ :=
  amountSum (records.filter (fun r =>
    decide (r.user = user ∧ r.rtype = RecType.expense ∧ r.category = category
      ∧ s ≤ r.date ∧ r.date ≤ e)))

/-- The record date is inside the closed month window the code computes. -/
abbrev inMonthWindow (year month d : Int) : Prop :=
  (monthWindow year month).1 ≤ d ∧ d ≤ (monthWindow year month).2

/-- Balance figure for a record type. -/
def balanceFigure (b : BalanceResult) (t : RecType) : ℚ :=
  match t with
  | .income => b.income
  | .expense => b.expense

/-- Monthly-summary figure for a record type. -/
def summaryFigure (s : SummaryResult) (t : RecType) : ℚ :=
  match t with
  | .income => s.income
  | .expense => s.expense

/-- Fixture: an all-time expense of 1700 in category "Housing", dated
inside the overall budget's window. -/
def housingRec : FinancialRecord :=
  { id := 1, user := 1, description := "rent", amount := 1700,
    rtype := .expense, category := "Housing", date := 5 }

/-- Fixture: an "Overall Budget" of 2000 whose window [0, 10] contains
`housingRec.date` (Scenario D's shape). -/
def overallBudget : Budget :=
  { id := 10, user := 1, category := "Overall Budget", budgetAmount := 2000,
    spentAmount := 0, period := .monthly, startDate := 0, endDate := 10,
    isActive := true, alertThreshold := 80, color := "#3B82F6" }

/-- Fixture: 2024-03-15 10:00:00, a "now" inside March 2024. -/
def nowMar2024 : Int := jsDateMs 2024 2 15 10 0 0

/-- Fixture: a monthly budget whose stored window is March 2024. -/
def marchBudget : Budget :=
  { id := 1, user := 1, category := "Food & Dining", budgetAmount := 600,
    spentAmount := 0, period := .monthly,
    startDate := jsDateMs 2024 2 1 0 0 0, endDate := jsDateMs 2024 3 0 0 0 0,
    isActive := true, alertThreshold := 80, color := "#3B82F6" }

/-- Fixture: an update request switching the period to yearly. -/
def yearlyReq : BudgetUpdateReq :=
  { budgetAmount := none, period := some .yearly, alertThreshold := none,
    category := none }

/-- Fixture: an expense of 100 in category "Food" dated inside
`foodBudget`'s window. -/
def foodRec : FinancialRecord :=
  { id := 1, user := 1, description := "lunch", amount := 100,
    rtype := .expense, category := "Food", date := 50 }

/-- Fixture: an active budget for "Food" with window [0, 100] whose cached
spend is 100 (consistent with `foodRec`). -/
def foodBudget : Budget :=
  { id := 7, user := 1, category := "Food", budgetAmount := 600,
    spentAmount := 100, period := .monthly, startDate := 0, endDate := 100,
    isActive := true, alertThreshold := 80, color := "#3B82F6" }

/-- Fixture: an update keeping type, amount and category but moving the
date out of `foodBudget`'s window. -/
def moveDateReq : RecordUpdateReq :=
  { description := "lunch", amount := 100, rtype := .expense,
    category := "Food", date := some 200 }

/-- Fixture (Scenario E): a 500 expense in "Food & Dining" dated inside
`diningBudget`'s window. -/
def diningRec : FinancialRecord :=
  { id := 1, user := 1, description := "dinner", amount := 500,
    rtype := .expense, category := "Food & Dining", date := 50 }

/-- Fixture (Scenario E / B): the active "Food & Dining" budget, 500 of
600 spent, alert threshold 80. -/
def diningBudget : Budget :=
  { id := 7, user := 1, category := "Food & Dining", budgetAmount := 600,
    spentAmount := 500, period := .monthly, startDate := 0, endDate := 100,
    isActive := true, alertThreshold := 80, color := "#3B82F6" }

/-- Fixture (Scenario E): recategorise the record to the unbudgeted
"Entertainment". -/
def toEntertainmentReq : RecordUpdateReq :=
  { description := "dinner", amount := 500, rtype := .expense,
    category := "Entertainment", date := none }

/-- Fixture: an active budget for "Entertainment" (same user, distinct
id) whose window [0, 100] contains `diningRec.date`, for the
moved-into-a-budgeted-category direction. -/
def entertainmentBudget : Budget :=
  { id := 8, user := 1, category := "Entertainment", budgetAmount := 300,
    spentAmount := 0, period := .monthly, startDate := 0, endDate := 100,
    isActive := true, alertThreshold := 80, color := "#3B82F6" }

/-- Fixture: an instant in the final 999 ms of March 2024
(2024-03-31 23:59:59.999). -/
def lateMarchMs : Int := jsDateMs 2024 3 0 23 59 59 + 999

/-- Fixture: an income record timestamped `lateMarchMs`. -/
def lateMarchRec : FinancialRecord :=
  { id := 1, user := 1, description := "bonus", amount := 100,
    rtype := .income, category := "Salary", date := lateMarchMs }

/-- Fixture: an income record exactly on the computed start boundary of
March 2024. -/
def marchStartRec : FinancialRecord :=
  { id := 2, user := 1, description := "pay", amount := 100,
    rtype := .income, category := "Salary", date := (monthWindow 2024 3).1 }

/-- Fixture: an income record exactly on the computed end boundary of
March 2024. -/
def marchEndRec : FinancialRecord :=
  { id := 3, user := 1, description := "pay", amount := 100,
    rtype := .income, category := "Salary", date := (monthWindow 2024 3).2 }

/-- Fixture: a create request duplicating `diningBudget`'s category. -/
def dupCreateReq : BudgetCreateReq :=
  { category := "Food & Dining", budgetAmount := 500, period := .monthly,
    alertThreshold := none, color := none }

/-- Fixture: an active and an inactive budget for the same user and
category. -/
def activeDining : Budget := { diningBudget with id := 1, isActive := true }

/-- Fixture: the inactive twin of `activeDining`. -/
def inactiveDining : Budget := { diningBudget with id := 2, isActive := false }

/-- Fixture: an active budget for a different category. -/
def activeEntertainment : Budget :=
  { diningBudget with id := 3, category := "Entertainment", isActive := true }

/-- Fixture: a budget-update request that only changes the category to
"Food & Dining". -/
def toDiningCategoryReq : BudgetUpdateReq :=
  { budgetAmount := none, period := none, alertThreshold := none,
    category := some "Food & Dining" }

/-- Fixture: a "Food & Dining" expense record for the list filter. -/
def listFoodRec : FinancialRecord :=
  { id := 1, user := 1, description := "d", amount := 20,
    rtype := .expense, category := "Food & Dining", date := 10 }

/-- Fixture: a "Salary" income record for the list filter. -/
def listSalaryRec : FinancialRecord :=
  { id := 2, user := 1, description := "s", amount := 3000,
    rtype := .income, category := "Salary", date := 5 }

end FinanceApp

deriving instance DecidableEq for Except

namespace FinanceApp

/-- Splitting a mapped sum along a Boolean predicate. -/
theorem sum_map_filter_split {α : Type} (p : α → Bool) (f : α → ℚ) (l : List α) :
    ((l.filter p).map f).sum + ((l.filter (fun a => !(p a))).map f).sum
      = (l.map f).sum := by
  induction l with
  | nil => simp
  | cons x xs ih =>
      by_cases h : p x = true
      · simp [List.filter_cons, h, ← ih]
        ring
      · simp at h
        simp [List.filter_cons, h, ← ih]
        ring

/-- Summing the per-category group totals over a duplicate-free key list
that covers every record recovers the total sum. -/
theorem sum_over_keys (keys : List String) (rs : List FinancialRecord)
    (hnd : keys.Nodup) (hall : ∀ r ∈ rs, r.category ∈ keys) :
    (keys.map (fun c => amountSum (rs.filter (fun r => r.category == c)))).sum
      = amountSum rs := by
  induction keys generalizing rs with
  | nil =>
      cases rs with
      | nil => simp [amountSum]
      | cons r rs => exact absurd (hall r (by simp)) (by simp)
  | cons k ks ih =>
      have hnd' : ks.Nodup := (List.nodup_cons.mp hnd).2
      have hk : k ∉ ks := (List.nodup_cons.mp hnd).1
      have hsplit := sum_map_filter_split (fun r => r.category == k) (·.amount) rs
      have hrest : ∀ r ∈ rs.filter (fun r => !(r.category == k)), r.category ∈ ks := by
        intro r hr
        have hmem := List.mem_of_mem_filter hr
        have hne : ¬ (r.category == k) = true := by
          have := List.of_mem_filter hr
          simpa using this
        have := hall r hmem
        simp at hne
        rcases List.mem_cons.mp this with h | h
        · exact absurd h hne
        · exact h
      have hks : ∀ c ∈ ks, rs.filter (fun r => r.category == c)
          = (rs.filter (fun r => !(r.category == k))).filter (fun r => r.category == c) := by
        intro c hc
        have hck : c ≠ k := fun hck => hk (hck ▸ hc)
        rw [List.filter_filter]
        apply List.filter_congr
        intro r _
        by_cases h : r.category = c
        · simp [h, hck]
        · simp [h]
      calc (List.map (fun c => amountSum (rs.filter (fun r => r.category == c))) (k :: ks)).sum
          = amountSum (rs.filter (fun r => r.category == k))
            + (ks.map (fun c => amountSum (rs.filter (fun r => r.category == c)))).sum := by
            simp
        _ = amountSum (rs.filter (fun r => r.category == k))
            + (ks.map (fun c => amountSum ((rs.filter (fun r => !(r.category == k))).filter
                (fun r => r.category == c)))).sum := by
            congr 1
            apply congrArg
            exact List.map_congr_left (fun c hc => congrArg amountSum (hks c hc))
        _ = amountSum (rs.filter (fun r => r.category == k))
            + amountSum (rs.filter (fun r => !(r.category == k))) := by
            rw [ih (rs.filter (fun r => !(r.category == k))) hnd' hrest]
        _ = amountSum rs := by
            simpa [amountSum] using hsplit

/-- The totals of the category groups sum to the total of all amounts. -/
theorem sum_groupByCategory (rs : List FinancialRecord) :
    ((groupByCategory rs).map (·.total)).sum = amountSum rs := by
  unfold groupByCategory
  rw [List.map_map]
  have h := sum_over_keys ((rs.map (·.category)).dedup) rs (List.nodup_dedup _)
    (fun r hr => List.mem_dedup.mpr (List.mem_map.mpr ⟨r, hr, rfl⟩))
  simpa using h

/-- Descending-total insertion permutes consing. -/
theorem perm_insertByTotalDesc (e : CatEntry) (l : List CatEntry) :
    List.Perm (insertByTotalDesc e l) (e :: l) := by
  induction l with
  | nil => simp [insertByTotalDesc]
  | cons x xs ih =>
      unfold insertByTotalDesc
      by_cases h : x.total < e.total
      · simp [h]
      · simp only [if_neg h]
        exact (ih.cons x).trans (List.Perm.swap e x xs)

/-- The descending-total sort is a permutation. -/
theorem perm_sortByTotalDesc (l : List CatEntry) :
    List.Perm (sortByTotalDesc l) l := by
  induction l with
  | nil => simp [sortByTotalDesc]
  | cons x xs ih => exact (perm_insertByTotalDesc x _).trans (ih.cons x)

/-- The breakdown totals sum to the plain amount total of the matched
records, independently of the sort. -/
theorem sum_breakdown (records : List FinancialRecord) (userId : Nat)
    (t : RecType) (ym : Option (Int × Int)) :
    ((getCategoryBreakdown records userId t ym).map (·.total)).sum
      = amountSum (records.filter (fun r =>
          r.user == userId && r.rtype == t &&
            (match ym with
             | some (year, month) =>
                 let w := monthWindow year month
                 decide (w.1 ≤ r.date) && decide (r.date ≤ w.2)
             | none => true))) := by
  unfold getCategoryBreakdown
  rw [((perm_sortByTotalDesc _).map _).sum_eq, sum_groupByCategory]

/-- Fusing two record filters into one conjunction. -/
theorem amountSum_filter_filter (p q : FinancialRecord → Bool)
    (l : List FinancialRecord) :
    amountSum ((l.filter p).filter q) = amountSum (l.filter (fun r => p r && q r)) := by
  rw [List.filter_filter]
  apply congrArg
  apply List.filter_congr
  intro r _
  exact Bool.and_comm (q r) (p r)

/-- C1, counterexample.  A budget whose category is the sentinel
"Overall Budget", with window [0, 10], against a store whose only record
is a 1700 expense in category "Housing" dated inside that window: the
claim says reconciliation stores the all-time expense total 1700, but
`updateSpentAmount` stores 0, because it matches the sentinel literally
as a category string. -/
theorem claim_C1_sentinel_counterexample :
    overallBudget.category = "Overall Budget"
    ∧ overallBudget.startDate ≤ housingRec.date
    ∧ housingRec.date ≤ overallBudget.endDate
    ∧ (getUserBalance [housingRec] 1).expense = 1700
    ∧ (updateSpentAmount [housingRec] overallBudget).spentAmount = 0
    ∧ (0 : ℚ) ≠ 1700 := by
  refine ⟨rfl, by decide, by decide, ?_, ?_, by norm_num⟩
  · have h : (getUserBalance [housingRec] 1).expense = amountSum [housingRec] := rfl
    rw [h]
    norm_num [amountSum, housingRec]
  · have h : (updateSpentAmount [housingRec] overallBudget).spentAmount
        = amountSum [] := rfl
    rw [h]
    simp [amountSum]

/-- C1, amended.  For every budget — the sentinel "Overall Budget"
included — `updateSpentAmount` stores exactly the windowed
exact-category sum of the spec's non-sentinel rule: the sum of the
user's expense records whose category equals the budget's category and
whose date lies within [startDate, endDate] inclusive.  No category
receives special handling. -/
theorem claim_C1_reconcile_uniform_category :
    ∀ (records : List FinancialRecord) (b : Budget),
      updateSpentAmount records b
        = { b with spentAmount :=
              windowedCategorySum records b.user b.category b.startDate b.endDate } := by
  intro records b
  unfold updateSpentAmount windowedCategorySum
  have hf : records.filter (fun r =>
        r.user == b.user && r.rtype == RecType.expense && r.category == b.category
          && decide (b.startDate ≤ r.date) && decide (r.date ≤ b.endDate))
      = records.filter (fun r =>
        decide (r.user = b.user ∧ r.rtype = RecType.expense ∧ r.category = b.category
          ∧ b.startDate ≤ r.date ∧ r.date ≤ b.endDate)) := by
    apply List.filter_congr
    intro r _
    by_cases h1 : r.user = b.user <;>
      by_cases h2 : r.rtype = RecType.expense <;>
        by_cases h3 : r.category = b.category <;>
          by_cases h4 : b.startDate ≤ r.date <;>
            by_cases h5 : r.date ≤ b.endDate <;>
              simp [h1, h2, h3, h4, h5]
  rw [hf]

/-- C2.  The update handler never recomputes the budget window: the
`period !== budget.period` guard at `budget.js` line 151 compares
against the already-overwritten field (line 146), so the recompute
branch is unreachable for every request.  Concretely: a monthly budget
with a March-2024 window, updated to yearly with "now" = 2024-03-15,
keeps the March window, while the create-rule window for yearly at that
"now" is [Jan 1 2024, Dec 31 2024], which differs from the stored one. -/
theorem claim_C2_period_window_never_recomputed :
    (∀ (now : Int) (b : Budget) (req : BudgetUpdateReq),
      (applyBudgetUpdate now b req).startDate = b.startDate
        ∧ (applyBudgetUpdate now b req).endDate = b.endDate)
    ∧ updateBudgetRoute nowMar2024 [] [marchBudget] 1 1 yearlyReq
        = .ok [{ marchBudget with period := Period.yearly }]
    ∧ computeWindow Period.yearly nowMar2024
        = (jsDateMs 2024 0 1 0 0 0, jsDateMs 2024 11 31 0 0 0)
    ∧ jsDateMs 2024 0 1 0 0 0 ≠ marchBudget.startDate := by
  refine ⟨?_, by decide, by decide, by decide⟩
  intro now b req
  obtain ⟨ba, pe, al, ca⟩ := req
  unfold applyBudgetUpdate
  cases ba <;> cases pe <;> cases al <;> cases ca <;> simp

/-- C3, counterexample.  An update that keeps the record an expense in
the same category but moves its date out of the budget window: the old
type was expense, so the claim requires the old category's active
budget to be reconciled (its spentAmount would become 0), yet the
handler leaves the budget untouched at its stale 100, because the
old-category branch runs only when the category changed and the
new-category query requires the window to contain the new date. -/
theorem claim_C3_old_category_not_reconciled_counterexample :
    foodRec.rtype = RecType.expense
    ∧ (applyRecordUpdate foodRec moveDateReq).category = foodRec.category
    ∧ updateRecord ⟨[foodRec], [foodBudget]⟩ 1 1 moveDateReq
        = .ok ⟨[applyRecordUpdate foodRec moveDateReq], [foodBudget]⟩
    ∧ foodBudget.spentAmount = 100
    ∧ (updateSpentAmount [applyRecordUpdate foodRec moveDateReq] foodBudget).spentAmount = 0
    ∧ (100 : ℚ) ≠ 0 := by
  refine ⟨rfl, rfl, by decide, rfl, ?_, by norm_num⟩
  have h : (updateSpentAmount [applyRecordUpdate foodRec moveDateReq] foodBudget).spentAmount
      = amountSum [] := rfl
  rw [h]
  simp [amountSum]

/-- C3, amended.  First conjunct (category changed, old type expense,
both categories budgeted): against a store holding the old-category
budget and a distinct active new-category budget whose window contains
the new date, `updateRecord` reconciles BOTH — the old-category budget
through the `oldCategory !== record.category` branch and the
new-category budget through the second query, which here finds it.
Second conjunct (category unchanged, old or new type expense): the
second query finds the budget matching the (unchanged) category and
window and reconciles it — the "amount changed" direction.  Then the
Scenario E instance: recategorising the 500 expense from budgeted
"Food & Dining" to unbudgeted "Entertainment" drops that budget's
spentAmount from 500 to 0 — a decrease by exactly the record's
amount — and no other budget is touched.  Finally, the concrete
moved-into direction: with "Entertainment" budgeted, the move
reconciles the target budget to the record's amount and the
old-category budget to 0. -/
theorem claim_C3_update_reconciliation_amended :
    (∀ (recs : List FinancialRecord) (bOld bNew : Budget) (rec : FinancialRecord)
      (req : RecordUpdateReq) (uid rid : Nat),
      recs.find? (fun r => r.id == rid && r.user == uid) = some rec →
      rec.rtype = RecType.expense →
      (applyRecordUpdate rec req).category ≠ rec.category →
      bOld.id ≠ bNew.id →
      bOld.user = uid → bOld.category = rec.category → bOld.isActive = true →
      bNew.user = uid → bNew.category = (applyRecordUpdate rec req).category →
      bNew.isActive = true →
      bNew.startDate ≤ (applyRecordUpdate rec req).date →
      (applyRecordUpdate rec req).date ≤ bNew.endDate →
      updateRecord ⟨recs, [bOld, bNew]⟩ uid rid req =
        .ok ⟨setRecord recs (applyRecordUpdate rec req),
             [updateSpentAmount (setRecord recs (applyRecordUpdate rec req)) bOld,
              updateSpentAmount (setRecord recs (applyRecordUpdate rec req)) bNew]⟩)
    ∧ (∀ (recs : List FinancialRecord) (b : Budget) (rec : FinancialRecord)
      (req : RecordUpdateReq) (uid rid : Nat),
      recs.find? (fun r => r.id == rid && r.user == uid) = some rec →
      (rec.rtype = RecType.expense ∨ (applyRecordUpdate rec req).rtype = RecType.expense) →
      (applyRecordUpdate rec req).category = rec.category →
      b.user = uid → b.category = (applyRecordUpdate rec req).category →
      b.isActive = true →
      b.startDate ≤ (applyRecordUpdate rec req).date →
      (applyRecordUpdate rec req).date ≤ b.endDate →
      updateRecord ⟨recs, [b]⟩ uid rid req =
        .ok ⟨setRecord recs (applyRecordUpdate rec req),
             [updateSpentAmount (setRecord recs (applyRecordUpdate rec req)) b]⟩)
    ∧ updateRecord ⟨[diningRec], [diningBudget]⟩ 1 1 toEntertainmentReq
        = .ok ⟨[applyRecordUpdate diningRec toEntertainmentReq],
               [{ diningBudget with spentAmount := 0 }]⟩
    ∧ diningBudget.spentAmount - diningRec.amount = 0
    ∧ (applyRecordUpdate diningRec toEntertainmentReq).category = "Entertainment"
    ∧ (updateSpentAmount
        (setRecord [diningRec] (applyRecordUpdate diningRec toEntertainmentReq))
        entertainmentBudget).spentAmount = diningRec.amount
    ∧ (updateSpentAmount
        (setRecord [diningRec] (applyRecordUpdate diningRec toEntertainmentReq))
        diningBudget).spentAmount = 0 := by
  refine ⟨?_, ?_, by decide, by norm_num [diningBudget, diningRec], rfl, ?_, ?_⟩
  · intro recs bOld bNew rec req uid rid hfind htype hcat hid hOu hOc hOa hNu hNc hNa hNs hNe
    unfold updateRecord
    rw [hfind]
    simp only [htype]
    have hcat' : (rec.category != (applyRecordUpdate rec req).category) = true := by
      simp [bne]
      exact fun h => hcat h.symm
    have hbne1 : (bOld.category == (applyRecordUpdate rec req).category) = false := by
      simp [hOc]
      exact fun h => hcat h.symm
    have hid1 : (bNew.id == bOld.id) = false := by
      simp
      exact fun h => hid h.symm
    have hid2 : (bOld.id == bNew.id) = false := by
      simp
      exact hid
    have hbeq : (rec.category == (applyRecordUpdate rec req).category) = false := by
      simp
      exact fun h => hcat h.symm
    have hc2 : ¬ (rec.category = (applyRecordUpdate rec req).category) :=
      fun h => hcat h.symm
    have hid' : ¬ (bNew.id = bOld.id) := fun h => hid h.symm
    simp [hcat', hOu, hOc, hOa, hNu, hNc, hNa, hNs, hNe, hbne1, hid1, hid2,
      hbeq, hc2, hid, hid', List.find?, setBudget, updateSpentAmount]
  · intro recs b rec req uid rid hfind htype hsame hBu hBc hBa hBs hBe
    unfold updateRecord
    rw [hfind]
    have hsame' : (rec.category != (applyRecordUpdate rec req).category) = false := by
      simp [bne, hsame]
    rcases htype with h | h <;>
      simp [h, hsame', hBu, hBc, hBa, hBs, hBe, List.find?, setBudget, updateSpentAmount]
  · have h : (updateSpentAmount
        (setRecord [diningRec] (applyRecordUpdate diningRec toEntertainmentReq))
        entertainmentBudget).spentAmount
      = amountSum [applyRecordUpdate diningRec toEntertainmentReq] := rfl
    rw [h]
    norm_num [amountSum, applyRecordUpdate, diningRec, toEntertainmentReq]
  · have h : (updateSpentAmount
        (setRecord [diningRec] (applyRecordUpdate diningRec toEntertainmentReq))
        diningBudget).spentAmount = amountSum [] := rfl
    rw [h]
    simp [amountSum]

/-- C3, witness for the amended theorem, at the moved-into-a-budgeted-
category input: the new-category query finds `entertainmentBudget` and
both budgets are reconciled. -/
theorem claim_C3_update_reconciliation_amended_witness :
    updateRecord ⟨[diningRec], [diningBudget, entertainmentBudget]⟩ 1 1 toEntertainmentReq =
      .ok ⟨setRecord [diningRec] (applyRecordUpdate diningRec toEntertainmentReq),
           [updateSpentAmount
              (setRecord [diningRec] (applyRecordUpdate diningRec toEntertainmentReq))
              diningBudget,
            updateSpentAmount
              (setRecord [diningRec] (applyRecordUpdate diningRec toEntertainmentReq))
              entertainmentBudget]⟩ :=
  claim_C3_update_reconciliation_amended.1 [diningRec] diningBudget entertainmentBudget
    diningRec toEntertainmentReq 1 1 (by decide) rfl (by decide) (by decide)
    rfl rfl rfl rfl rfl rfl (by decide) (by decide)

/-- C4, counterexample.  JavaScript dates carry milliseconds, and the
window end `new Date(year, month, 0, 23, 59, 59)` is 23:59:59.000 of
the last day — not the last instant of the month.  An income record at
2024-03-31 23:59:59.999 lies inside March (its date is before April's
first instant) yet `getMonthlySummary 2024 3` does not count it. -/
theorem claim_C4_last_instant_excluded_counterexample :
    (monthWindow 2024 3).1 ≤ lateMarchRec.date
    ∧ lateMarchRec.date < jsDateMs 2024 3 1 0 0 0
    ∧ lateMarchRec.rtype = RecType.income
    ∧ lateMarchRec.amount = 100
    ∧ lateMarchRec.user = 1
    ∧ (getMonthlySummary [lateMarchRec] 1 2024 3).income = 0 := by
  refine ⟨by decide, by decide, rfl, rfl, rfl, ?_⟩
  have h : (getMonthlySummary [lateMarchRec] 1 2024 3).income = amountSum [] := rfl
  rw [h]
  simp [amountSum]

/-- C4, amended.  `getMonthlySummary` sums each type over the user's
records whose date lies in the closed interval from the month's first
instant to 23:59:59.000 of its last day (999 ms short of the month's
last instant: the window end is exactly 1000 ms before the next month's
first instant, for every year and month).  The end is derived as day 0
of the next month, which handles the December→January rollover and leap
years — Feb 2024 ends on day 29, Feb 2023 on day 28, Dec 2024 on
day 31 — and records exactly on either computed boundary instant are
counted. -/
theorem claim_C4_month_window_amended :
    (∀ (records : List FinancialRecord) (userId : Nat) (year month : Int),
      (getMonthlySummary records userId year month).income
        = amountSum (records.filter (fun r =>
            decide (r.user = userId ∧ r.rtype = RecType.income
              ∧ inMonthWindow year month r.date))))
    ∧ (∀ (records : List FinancialRecord) (userId : Nat) (year month : Int),
      (getMonthlySummary records userId year month).expense
        = amountSum (records.filter (fun r =>
            decide (r.user = userId ∧ r.rtype = RecType.expense
              ∧ inMonthWindow year month r.date))))
    ∧ (∀ year month : Int,
        (monthWindow year month).2 = jsDateMs year month 1 0 0 0 - 1000)
    ∧ (monthWindow 2024 2).2 = jsDateMs 2024 1 29 23 59 59
    ∧ (monthWindow 2023 2).2 = jsDateMs 2023 1 28 23 59 59
    ∧ (monthWindow 2024 12).2 = jsDateMs 2024 11 31 23 59 59
    ∧ marchStartRec.date = (monthWindow 2024 3).1
    ∧ marchEndRec.date = (monthWindow 2024 3).2
    ∧ (getMonthlySummary [marchStartRec, marchEndRec] 1 2024 3).income = 200 := by
  refine ⟨?_, ?_, ?_, by decide, by decide, by decide, rfl, rfl, ?_⟩
  · intro records u y m
    show amountSum _ = _
    rw [amountSum_filter_filter]
    apply congrArg
    apply List.filter_congr
    intro r _
    by_cases h1 : r.user = u <;>
      by_cases h2 : r.rtype = RecType.income <;>
        by_cases h3 : (monthWindow y m).1 ≤ r.date <;>
          by_cases h4 : r.date ≤ (monthWindow y m).2 <;>
            simp [h1, h2, h3, h4]
  · intro records u y m
    show amountSum _ = _
    rw [amountSum_filter_filter]
    apply congrArg
    apply List.filter_congr
    intro r _
    by_cases h1 : r.user = u <;>
      by_cases h2 : r.rtype = RecType.expense <;>
        by_cases h3 : (monthWindow y m).1 ≤ r.date <;>
          by_cases h4 : r.date ≤ (monthWindow y m).2 <;>
            simp [h1, h2, h3, h4]
  · intro y m
    simp only [monthWindow, jsDateMs, msPerDay]
    ring
  · have h : (getMonthlySummary [marchStartRec, marchEndRec] 1 2024 3).income
        = amountSum [marchStartRec, marchEndRec] := rfl
    rw [h]
    norm_num [amountSum, marchStartRec, marchEndRec]

/-- C5.  For every record store, user, and record type, the totals of
the category-breakdown entries sum to the balance figure of that type:
against `getUserBalance` when no month filter is given (both sides are
then all-time), and against the same-window `getMonthlySummary` figure
when a year and month are given. -/
theorem claim_C5_breakdown_totals_match_balance :
    ∀ (records : List FinancialRecord) (userId : Nat) (t : RecType),
      (((getCategoryBreakdown records userId t none).map (·.total)).sum
         = balanceFigure (getUserBalance records userId) t)
      ∧ ∀ year month : Int,
        (((getCategoryBreakdown records userId t (some (year, month))).map (·.total)).sum
           = summaryFigure (getMonthlySummary records userId year month) t) := by
  intro records u t
  constructor
  · rw [sum_breakdown]
    cases t with
    | income =>
        show _ = (getUserBalance records u).income
        unfold getUserBalance
        simp only
        rw [amountSum_filter_filter]
        apply congrArg
        apply List.filter_congr
        intro r _
        simp
    | expense =>
        show _ = (getUserBalance records u).expense
        unfold getUserBalance
        simp only
        rw [amountSum_filter_filter]
        apply congrArg
        apply List.filter_congr
        intro r _
        simp
  · intro year month
    rw [sum_breakdown]
    cases t with
    | income =>
        show _ = (getMonthlySummary records u year month).income
        unfold getMonthlySummary
        simp only
        rw [amountSum_filter_filter]
        apply congrArg
        apply List.filter_congr
        intro r _
        cases hu : (r.user == u) <;>
          cases ht : (r.rtype == RecType.income) <;>
            cases h1 : decide ((monthWindow year month).1 ≤ r.date) <;>
              cases h2 : decide (r.date ≤ (monthWindow year month).2) <;>
                simp [hu, ht, h1, h2]
    | expense =>
        show _ = (getMonthlySummary records u year month).expense
        unfold getMonthlySummary
        simp only
        rw [amountSum_filter_filter]
        apply congrArg
        apply List.filter_congr
        intro r _
        cases hu : (r.user == u) <;>
          cases ht : (r.rtype == RecType.expense) <;>
            cases h1 : decide ((monthWindow year month).1 ≤ r.date) <;>
              cases h2 : decide (r.date ≤ (monthWindow year month).2) <;>
                simp [hu, ht, h1, h2]

/-- C6.  Whenever the user already holds an active budget for the
requested category, `createBudget` rejects the request with the
duplicate-active validation error, and the stored budget list —
including every field of the pre-existing budget — is exactly what it
was before the call. -/
theorem claim_C6_duplicate_active_budget_rejected :
    ∀ (now : Int) (records : List FinancialRecord) (budgets : List Budget)
      (newId uid : Nat) (req : BudgetCreateReq) (b : Budget),
      b ∈ budgets → b.user = uid → b.category = req.category → b.isActive = true →
      createBudget now records budgets newId uid req
          = .error "Active budget already exists for this category"
      ∧ createBudgetState now records budgets newId uid req = budgets := by
  intro now records budgets newId uid req b hmem hu hc ha
  have hsome : (budgets.find? (fun x =>
      x.user == uid && x.category == req.category && x.isActive)).isSome := by
    rw [List.find?_isSome]
    exact ⟨b, hmem, by simp [hu, hc, ha]⟩
  obtain ⟨b', hb'⟩ := Option.isSome_iff_exists.mp hsome
  have herr : createBudget now records budgets newId uid req
      = .error "Active budget already exists for this category" := by
    unfold createBudget
    rw [hb']
  exact ⟨herr, by unfold createBudgetState; rw [herr]⟩

/-- C6, witness: the duplicate create against the "Food & Dining"
budget is rejected and leaves the store as it was. -/
theorem claim_C6_duplicate_active_budget_rejected_witness :
    createBudget 0 [] [diningBudget] 99 1 dupCreateReq
        = .error "Active budget already exists for this category"
    ∧ createBudgetState 0 [] [diningBudget] 99 1 dupCreateReq = [diningBudget] :=
  claim_C6_duplicate_active_budget_rejected 0 [] [diningBudget] 99 1 dupCreateReq
    diningBudget (by decide) rfl rfl rfl

/-- C7.  The derived read-time virtuals: remainingAmount is the
clamped difference; percentageSpent is 0 for a zero budgetAmount and
spent/budget×100 for a positive one; status is "exceeded" exactly when
the percentage reaches 100, "warning" exactly when it is below 100 but
reaches the alert threshold, and "good" otherwise.  On the Scenario B
shape (500 spent of 600, threshold 80) the percentage is 250/3 ≈ 83.3,
the status "warning", and 100 remains. -/
theorem claim_C7_budget_virtuals :
    (∀ b : Budget, remainingAmount b = max 0 (b.budgetAmount - b.spentAmount))
    ∧ (∀ b : Budget, b.budgetAmount = 0 → percentageSpent b = 0)
    ∧ (∀ b : Budget, b.budgetAmount > 0 →
        percentageSpent b = b.spentAmount / b.budgetAmount * 100)
    ∧ (∀ b : Budget, statusOf b = "exceeded" ↔ percentageSpent b ≥ 100)
    ∧ (∀ b : Budget, statusOf b = "warning" ↔
        percentageSpent b < 100 ∧ percentageSpent b ≥ b.alertThreshold)
    ∧ (∀ b : Budget, statusOf b = "good" ↔
        percentageSpent b < 100 ∧ percentageSpent b < b.alertThreshold)
    ∧ percentageSpent diningBudget = 250 / 3
    ∧ statusOf diningBudget = "warning"
    ∧ remainingAmount diningBudget = 100 := by
  refine ⟨fun b => rfl, ?_, ?_, ?_, ?_, ?_, ?_, ?_, ?_⟩
  · intro b h
    simp [percentageSpent, h]
  · intro b h
    simp [percentageSpent, h]
  · intro b
    unfold statusOf
    split_ifs with h1 h2
    · simp [h1]
    · simp +decide [h1]
    · simp +decide [h1]
  · intro b
    unfold statusOf
    split_ifs with h1 h2
    · simp +decide [not_lt.mpr h1]
    · simp [h2, not_le.mp h1]
    · simp +decide [h2]
  · intro b
    unfold statusOf
    split_ifs with h1 h2
    · simp +decide [not_lt.mpr h1]
    · simp +decide [not_lt.mpr h2]
    · simp [not_le.mp h1, not_le.mp h2]
  · norm_num [percentageSpent, diningBudget]
  · norm_num [statusOf, percentageSpent, diningBudget]
  · norm_num [remainingAmount, diningBudget]

/-- C7, witness: the zero-budget fallback and the positive-budget
formula of `percentageSpent`, at concrete budgets. -/
theorem claim_C7_budget_virtuals_witness :
    percentageSpent { diningBudget with budgetAmount := 0 } = 0
    ∧ percentageSpent diningBudget
        = diningBudget.spentAmount / diningBudget.budgetAmount * 100 :=
  ⟨claim_C7_budget_virtuals.2.1 { diningBudget with budgetAmount := 0 } rfl,
   claim_C7_budget_virtuals.2.2.1 diningBudget (by norm_num [diningBudget])⟩

/-- C8.  Reconciliation is idempotent: against a fixed record store, a
second `updateSpentAmount` call computes the same spentAmount (the
recomputed total depends only on the records and on the budget's user,
category and window, none of which the first call changed) and leaves
the budget document exactly as the first call left it. -/
theorem claim_C8_reconcile_idempotent :
    ∀ (records : List FinancialRecord) (b : Budget),
      updateSpentAmount records (updateSpentAmount records b)
          = updateSpentAmount records b
      ∧ (updateSpentAmount records (updateSpentAmount records b)).spentAmount
          = (updateSpentAmount records b).spentAmount := by
  intro records b
  exact ⟨rfl, rfl⟩

/-- C9.  The at-most-one-active-budget invariant is enforced only at
creation: from a store with one active and one inactive budget for the
same user and category (one active budget for the pair), toggling the
inactive one succeeds with no duplicate check and leaves two active
budgets for that pair; likewise `updateBudgetRoute` happily renames an
active budget's category onto another active budget's category,
yielding two active budgets for the pair. -/
theorem claim_C9_toggle_bypasses_duplicate_invariant :
    activeDining.user = inactiveDining.user
    ∧ activeDining.category = inactiveDining.category
    ∧ activeDining.isActive = true ∧ inactiveDining.isActive = false
    ∧ activeBudgetCount [activeDining, inactiveDining] 1 "Food & Dining" = 1
    ∧ toggleBudgetActive [activeDining, inactiveDining] 1 2
        = .ok [activeDining, { inactiveDining with isActive := true }]
    ∧ activeBudgetCount [activeDining, { inactiveDining with isActive := true }]
        1 "Food & Dining" = 2
    ∧ updateBudgetRoute 0 [] [activeDining, activeEntertainment] 1 3 toDiningCategoryReq
        = .ok [activeDining,
               { activeEntertainment with category := "Food & Dining", spentAmount := 0 }]
    ∧ activeBudgetCount
        [activeDining,
         { activeEntertainment with category := "Food & Dining", spentAmount := 0 }]
        1 "Food & Dining" = 2 := by
  decide

/-- C10.  The list endpoint's category filter is an unanchored,
case-insensitive match against the stored category — the filter "food"
(and "FOOD", and "Dining") returns the record categorised
"Food & Dining", although the filter string differs from the stored
category — while the type filter matches exactly: an income filter
excludes the expense record. -/
theorem claim_C10_category_filter_regex :
    regexTestCI "food" "Food & Dining" = true
    ∧ "food" ≠ listFoodRec.category
    ∧ listRecords [listFoodRec, listSalaryRec] 1 ⟨none, some "food", none, none⟩ 1 10
        = [listFoodRec]
    ∧ listRecords [listFoodRec, listSalaryRec] 1 ⟨none, some "FOOD", none, none⟩ 1 10
        = [listFoodRec]
    ∧ listRecords [listFoodRec, listSalaryRec] 1 ⟨none, some "Dining", none, none⟩ 1 10
        = [listFoodRec]
    ∧ regexTestCI "Housing" "Food & Dining" = false
    ∧ listRecords [listFoodRec, listSalaryRec] 1 ⟨some RecType.income, none, none, none⟩ 1 10
        = [listSalaryRec]
    ∧ matchesListQuery 1 ⟨some RecType.income, none, none, none⟩ listFoodRec = false := by
  decide

end FinanceApp
